import Mathlib

/-!
Verification of the swimmy booking API policy layer, a shallow embedding of
`restful/views.py`: permission-class selection per action, owner-scoped
listings, pagination handoff, integrity-error translation, the pool
average-rating aggregate, and the registration endpoint.
-/

namespace Swimmy

/-- An authenticated user identity (a row of the custom `User` model). -/
structure Identity where
  id : Nat
  username : String
  isAdmin : Bool
deriving DecidableEq, Repr

/-- The caller attached to a request: django's `request.user` is either
`AnonymousUser` or an authenticated `User`. -/
inductive ReqUser where
  | anonymous
  | authenticated (u : Identity)
deriving DecidableEq, Repr

/-- The permission classes appearing in `restful/views.py`:
`AllowAny`, `IsAdminUser`, `IsAuthenticated` (framework built-ins) and
`IsOwner` (from `restful/permissions.py`). -/
inductive Permission where
  | AllowAny
  | IsAdminUser
  | IsAuthenticated
  | IsOwner
deriving DecidableEq, Repr

/-- The viewset actions a `ModelViewSet` dispatches on (`self.action`). -/
inductive ViewAction where
  | list
  | create
  | retrieve
  | update
  | partialUpdate
  | destroy
deriving DecidableEq, Repr

/-- View-level permission check (`has_permission`). The three built-ins
follow the framework: `AllowAny` always grants, `IsAdminUser` requires an
authenticated admin, `IsAuthenticated` any authenticated caller.
For `IsOwner`, modelled from the spec: `restful/permissions.py` is not under
src/; per the spec, owner-only gating is an object-level check ("acting on
own records"), and the `recent_bookings` flow shows anonymous callers reach
the handler body, so at view level `IsOwner` grants. -/
def Permission.has_permission : Permission → ReqUser → Bool
  | .AllowAny, _ => true
  | .IsAdminUser, .authenticated u => u.isAdmin
  | .IsAdminUser, .anonymous => false
  | .IsAuthenticated, .authenticated _ => true
  | .IsAuthenticated, .anonymous => false
  | .IsOwner, _ => true

/-- Object-level permission check (`has_object_permission`) against the
record's owner. Modelled from the spec for `IsOwner` (not under src/):
"Owner-only: action permitted only when the acting identity equals the
resource's associated user". Framework built-ins default to their
view-level result. -/
def Permission.has_object_permission : Permission → ReqUser → Identity → Bool
  | .IsOwner, caller, owner => decide (caller = ReqUser.authenticated owner)
  | p, caller, _ => p.has_permission caller

/-- Whether an action operates on a single record, so that the framework
also runs object-level checks against that record. -/
def ViewAction.isDetail : ViewAction → Bool
  | .list => false
  | .create => false
  | _ => true

/-- Framework dispatch of a permission-class list: every class must pass
the view-level check, and for detail actions also the object-level check
against the target record's owner. -/
def allowed (pcs : List Permission) (a : ViewAction) (caller : ReqUser)
    (owner : Identity) : Bool :=
  pcs.all (fun p => p.has_permission caller) &&
  (!a.isDetail || pcs.all (fun p => p.has_object_permission caller owner))

/-- A stored Booking row (`restful/models.py` fields used by the views). -/
structure Booking where
  slug : String
  user : Nat
  pool : String
  created_at : Nat
deriving DecidableEq, Repr

/-- A stored Rating row. -/
structure Rating where
  slug : String
  user : Nat
  pool : String
  value : Int
  created_at : Nat
deriving DecidableEq, Repr

/-- A stored Pool row. -/
structure Pool where
  slug : String
  name : String
  created_at : Nat
deriving DecidableEq, Repr

/-- A stored FileUpload row. -/
structure FileUpload where
  file : String
  uploaded_at : Nat
deriving DecidableEq, Repr

/-- Insert an element into a list kept in descending `key` order. -/
def insertDescBy (key : α → Nat) (x : α) : List α → List α
  | [] => [x]
  | y :: ys => if key y ≤ key x then x :: y :: ys else y :: insertDescBy key x ys

/-- `order_by` with a descending key (`order_by` with a `-` prefixed
column): sort the rows newest-first on the key. -/
def order_by_desc (key : α → Nat) : List α → List α
  | [] => []
  | x :: xs => insertDescBy key x (order_by_desc key xs)

/-- The SQL aggregate underlying `Avg('rating__value')`: fold the joined
rating rows into a running (sum, count); `AVG` is sum/count, and NULL when
no row matched. -/
def sqlAvg (vs : List Int) : Option ℚ :=
  let s := vs.foldl (fun acc v => (acc.1 + v, acc.2 + 1)) ((0 : Int), (0 : Nat))
  if s.2 = 0 then none else some ((s.1 : ℚ) / (s.2 : ℚ))

/-- `PoolViewSet.get_queryset`:
`Pool.objects.all().annotate(Avg('rating__value')).order_by('-created_at')`.
Each pool is paired with the average of its related ratings. -/
def PoolViewSet.get_queryset (pools : List Pool) (ratings : List Rating) :
    List (Pool × Option ℚ) :=
  order_by_desc (fun pr => pr.1.created_at)
    (pools.map (fun p =>
      (p, sqlAvg ((ratings.filter (fun r => r.pool == p.slug)).map Rating.value))))

/-- `PoolViewSet.get_permissions`: admin for create/update/partial_update/
destroy, anyone otherwise. -/
def PoolViewSet.get_permissions (a : ViewAction) : List Permission :=
  if a = ViewAction.create ∨ a = ViewAction.update ∨
     a = ViewAction.partialUpdate ∨ a = ViewAction.destroy then
    [Permission.IsAdminUser]
  else
    [Permission.AllowAny]

/-- The exceptions the views can see: the storage layer's `IntegrityError`
and the other framework errors, which the views leave to the default
handler. -/
inductive Exc where
  | IntegrityError (msg : String)
  | NotFound
  | ValidationError (msg : String)
  | Other (msg : String)
deriving DecidableEq, Repr

/-- Response bodies the embedded handlers produce: serialized record lists,
the paginated envelope `{count, next, previous, results}`, a `{'detail': …}`
object, and a single-key object such as the integrity-error bodies. -/
inductive Body where
  | bookingList (l : List Booking)
  | bookingEnvelope (count : Nat) (next previous : Option Nat) (results : List Booking)
  | ratingList (l : List Rating)
  | ratingEnvelope (count : Nat) (next previous : Option Nat) (results : List Rating)
  | detail (msg : String)
  | kv (key value : String)
deriving DecidableEq, Repr

/-- Whether a body is the paginated envelope. -/
def Body.isEnvelope : Body → Bool
  | .bookingEnvelope _ _ _ _ => true
  | .ratingEnvelope _ _ _ _ => true
  | _ => false

/-- An HTTP response: status code and body. -/
structure Response where
  status : Nat
  body : Body
deriving DecidableEq, Repr

/-- `APIView.handle_exception` of the framework (external collaborator),
reached through `super().handle_exception(exc)`: known API exceptions keep
their status, and an unhandled storage-layer error propagates as a generic
500 carrying the raw exception text. -/
def default_handle_exception : Exc → Response
  | .IntegrityError m => ⟨500, Body.detail m⟩
  | .NotFound => ⟨404, Body.detail "Not found."⟩
  | .ValidationError m => ⟨400, Body.detail m⟩
  | .Other m => ⟨500, Body.detail m⟩

/-- `paginate_queryset` (framework collaborator): `none` when the request
carries no page parameter; otherwise the requested page number together
with the corresponding slice of the list. -/
def paginate_queryset (page : Option Nat) (pageSize : Nat) (l : List α) :
    Option (Nat × List α) :=
  match page with
  | none => none
  | some n => some (n, (l.drop ((n - 1) * pageSize)).take pageSize)

/-- `previous` link of the paginated envelope: the page before, if any. -/
def envelopePrevious (page : Nat) : Option Nat :=
  if 1 < page then some (page - 1) else none

/-- `next` link of the paginated envelope: the page after, if any rows
remain beyond the current page. -/
def envelopeNext (page pageSize count : Nat) : Option Nat :=
  if page * pageSize < count then some (page + 1) else none

/-- `BookingViewSet.queryset = Booking.objects.all().order_by('-created_at')`. -/
def BookingViewSet.queryset (db : List Booking) : List Booking :=
  order_by_desc (fun b => b.created_at) db

/-- `BookingViewSet.get_permissions`: `if list / elif create / else`. -/
def BookingViewSet.get_permissions (a : ViewAction) : List Permission :=
  if a = ViewAction.list then [Permission.IsAdminUser]
  else if a = ViewAction.create then [Permission.IsAuthenticated]
  else [Permission.IsOwner]

/-- `BookingViewSet.handle_exception`: an `IntegrityError` is rewritten to a
400 with the single-key body built from
`'You have already booked this pool.' + 'Request an update if required'`;
everything else goes to `super().handle_exception`. -/
def BookingViewSet.handle_exception (exc : Exc) : Response :=
  match exc with
  | .IntegrityError _ =>
    let error := "You have already booked this pool." ++ "Request an update if required"
    ⟨400, Body.kv "Integrity error" error⟩
  | e => default_handle_exception e

/-- The queryset of `recent_bookings`:
`Booking.objects.filter(user=request.user).order_by('-created_at')`. -/
def BookingViewSet.recentQueryset (u : Identity) (db : List Booking) : List Booking :=
  order_by_desc (fun b => b.created_at) (db.filter (fun b => b.user == u.id))

/-- `BookingViewSet.recent_bookings`: 401 for `AnonymousUser`; otherwise the
caller's bookings newest-first, in the paginated envelope when a page is
requested (`get_paginated_response`) and as the full list otherwise. -/
def BookingViewSet.recent_bookings (requestUser : ReqUser) (db : List Booking)
    (page : Option Nat) (pageSize : Nat) : Response :=
  match requestUser with
  | .anonymous => ⟨401, Body.detail "User not known"⟩
  | .authenticated u =>
    let recent := BookingViewSet.recentQueryset u db
    match paginate_queryset page pageSize recent with
    | some (n, pg) =>
      ⟨200, Body.bookingEnvelope recent.length
        (envelopeNext n pageSize recent.length) (envelopePrevious n) pg⟩
    | none => ⟨200, Body.bookingList recent⟩

/-- `RatingViewSet.queryset = Rating.objects.all().order_by('-created_at')`. -/
def RatingViewSet.queryset (db : List Rating) : List Rating :=
  order_by_desc (fun r => r.created_at) db

/-- `RatingViewSet.get_permissions`. Translated statement by statement: the
source writes `if action == 'create'` and then a separate
`if action == 'list' / else`, so the second assignment always overwrites
the first. -/
def RatingViewSet.get_permissions (a : ViewAction) : List Permission :=
  let permission_classes :=
    if a = ViewAction.create then [Permission.IsAuthenticated] else []
  let permission_classes :=
    if a = ViewAction.list then [Permission.IsAdminUser] else [Permission.IsOwner]
  permission_classes

/-- The deserialized payload of a Rating create request; the client may or
may not supply a `user` value of its own. -/
structure RatingPayload where
  user : Option Nat
  pool : String
  value : Int
deriving DecidableEq, Repr

/-- `serializer.save(**kwargs)` for Rating (framework collaborator): keyword
overrides replace the corresponding deserialized payload fields in the
stored row; without an override the payload's value (or the field default)
is stored. -/
def ratingSerializerSave (payload : RatingPayload) (userOverride : Option Nat)
    (slug : String) (now : Nat) : Rating :=
  { slug := slug
    user := match userOverride with
            | some uid => uid
            | none => payload.user.getD 0
    pool := payload.pool
    value := payload.value
    created_at := now }

/-- `RatingViewSet.perform_create`: `serializer.save(user=self.request.user)`. -/
def RatingViewSet.perform_create (requestUser : Identity) (payload : RatingPayload)
    (slug : String) (now : Nat) : Rating :=
  ratingSerializerSave payload (some requestUser.id) slug now

/-- The deserialized payload of a Booking create request. -/
structure BookingPayload where
  user : Option Nat
  pool : String
deriving DecidableEq, Repr

/-- Modelled from the spec: `BookingViewSet` declares no `perform_create`
in `restful/views.py`; booking creation delegates to `BookingSerializer`
(`restful/serializers.py`), which is not under src/. Per the spec, for
Booking creation the handler "forces the `user` field to the caller's
identity regardless of payload content". -/
def bookingCreate (requestUser : Identity) (payload : BookingPayload)
    (slug : String) (now : Nat) : Booking :=
  { slug := slug
    user := requestUser.id
    pool := payload.pool
    created_at := now }

/-- The queryset of `user_ratings`:
`Rating.objects.filter(user=request.user).order_by('-created_at')`. -/
def RatingViewSet.userQueryset (u : Identity) (db : List Rating) : List Rating :=
  order_by_desc (fun r => r.created_at) (db.filter (fun r => r.user == u.id))

/-- `RatingViewSet.user_ratings`: 401 for `AnonymousUser`; otherwise the
caller's ratings newest-first. When a page is requested the source returns
`Response(serializer.data)` on the page — the bare slice, not
`get_paginated_response`. -/
def RatingViewSet.user_ratings (requestUser : ReqUser) (db : List Rating)
    (page : Option Nat) (pageSize : Nat) : Response :=
  match requestUser with
  | .anonymous => ⟨401, Body.detail "User not known"⟩
  | .authenticated u =>
    let userRatings := RatingViewSet.userQueryset u db
    match paginate_queryset page pageSize userRatings with
    | some (_, pg) => ⟨200, Body.ratingList pg⟩
    | none => ⟨200, Body.ratingList userRatings⟩

/-- `RatingViewSet.handle_exception`: an `IntegrityError` is rewritten to a
400 with body `{'Integrity Error': 'Already rated! request update to make
changes'}`; everything else goes to `super().handle_exception`. -/
def RatingViewSet.handle_exception (exc : Exc) : Response :=
  match exc with
  | .IntegrityError _ =>
    let error := "Already rated! request update to make changes"
    ⟨400, Body.kv "Integrity Error" error⟩
  | e => default_handle_exception e

/-- `FileUploadView.queryset = FileUpload.objects.all().order_by('-uploaded_at')`. -/
def FileUploadView.queryset (db : List FileUpload) : List FileUpload :=
  order_by_desc (fun f => f.uploaded_at) db

/-- The authentication classes the framework may run for a request. -/
inductive AuthenticationClass where
  | JWTAuthentication
deriving DecidableEq, Repr

/-- The credential material accompanying a request: absent, an invalid
token, or a token valid for some user. -/
inductive Credentials where
  | absent
  | invalid (token : String)
  | valid (u : Identity)
deriving DecidableEq, Repr

/-- The framework authentication pipeline (external collaborator): each
configured authentication class is tried in order; when none is configured
or none succeeds, `request.user` is `AnonymousUser`. -/
def authenticate : List AuthenticationClass → Credentials → ReqUser
  | [], _ => ReqUser.anonymous
  | AuthenticationClass.JWTAuthentication :: rest, creds =>
    match creds with
    | Credentials.valid u => ReqUser.authenticated u
    | _ => authenticate rest creds

/-- `RegisterAPIView.authentication_classes = []`. -/
def RegisterAPIView.authentication_classes : List AuthenticationClass := []

/-- `RegisterAPIView.permission_classes = [AllowAny]`. -/
def RegisterAPIView.permission_classes : List Permission := [Permission.AllowAny]

/-- The body of a register request. -/
structure RegisterBody where
  email : String
  username : String
  password : String
deriving DecidableEq, Repr

/-- A stored User row as the register flow sees it. -/
structure UserRow where
  id : Nat
  email : String
  username : String
deriving DecidableEq, Repr

/-- A register response: the 201 payload of `RegisterAPIView.create`, a
validation failure, or a permission denial. -/
inductive RegResponse where
  | created (status : Nat) (message : String) (user : UserRow) (refresh access : String)
  | validationError (status : Nat) (msg : String)
  | forbidden (status : Nat)
deriving DecidableEq, Repr

/-- Token issuance (external collaborator, `RefreshToken.for_user`): a
deterministic function of the user. -/
def tokenFor (kind : String) (u : UserRow) : String :=
  kind ++ "-" ++ toString u.id

/-- `RegisterAPIView.create` past the permission gate. Modelled from the
spec where `UserSerializer` (`restful/serializers.py`) is not under src/:
register "validates uniqueness of email/username …, creates a User, issues
a token pair", failing with a validation error on a duplicate; the 201
status and 'User registered successfully' message are from the source. -/
def registerCreate (body : RegisterBody) (db : List UserRow) : RegResponse :=
  if db.any (fun u => u.email == body.email || u.username == body.username) then
    RegResponse.validationError 400 "A user with this email or username already exists."
  else
    let newUser : UserRow := ⟨db.length + 1, body.email, body.username⟩
    RegResponse.created 201 "User registered successfully" newUser
      (tokenFor "refresh" newUser) (tokenFor "access" newUser)

/-- The full dispatch of a register request: run the view's authentication
classes to resolve `request.user`, check its permission classes, then run
the create handler. -/
def RegisterAPIView.handle (creds : Credentials) (body : RegisterBody)
    (db : List UserRow) : RegResponse :=
  let requestUser := authenticate RegisterAPIView.authentication_classes creds
  if RegisterAPIView.permission_classes.all (fun p => p.has_permission requestUser) then
    registerCreate body db
  else
    RegResponse.forbidden 403

/-! Lemmas about the descending sort used by `order_by('-…')`. -/

theorem mem_insertDescBy (key : α → Nat) (x a : α) (l : List α) :
    a ∈ insertDescBy key x l ↔ a = x ∨ a ∈ l := by
  induction l with
  | nil => simp [insertDescBy]
  | cons y ys ih =>
    simp only [insertDescBy]
    split
    · simp [List.mem_cons]
    · simp [List.mem_cons, ih]
      tauto

theorem sorted_insertDescBy (key : α → Nat) (x : α) (l : List α)
    (h : l.Sorted (fun a b => key b ≤ key a)) :
    (insertDescBy key x l).Sorted (fun a b => key b ≤ key a) := by
  induction l with
  | nil => simp [insertDescBy]
  | cons y ys ih =>
    rw [List.sorted_cons] at h
    simp only [insertDescBy]
    split
    case isTrue hle =>
      rw [List.sorted_cons]
      constructor
      · intro b hb
        rcases List.mem_cons.mp hb with hb | hb
        · subst hb; exact hle
        · exact le_trans (h.1 b hb) hle
      · rw [List.sorted_cons]
        exact h
    case isFalse hgt =>
      rw [List.sorted_cons]
      constructor
      · intro b hb
        rcases (mem_insertDescBy key x b ys).mp hb with hb | hb
        · subst hb; exact le_of_lt (not_le.mp hgt)
        · exact h.1 b hb
      · exact ih h.2

theorem mem_order_by_desc (key : α → Nat) (a : α) (l : List α) :
    a ∈ order_by_desc key l ↔ a ∈ l := by
  induction l with
  | nil => simp [order_by_desc]
  | cons x xs ih => simp [order_by_desc, mem_insertDescBy, ih]

theorem sorted_order_by_desc (key : α → Nat) (l : List α) :
    (order_by_desc key l).Sorted (fun a b => key b ≤ key a) := by
  induction l with
  | nil => simp [order_by_desc]
  | cons x xs ih => exact sorted_insertDescBy key x _ ih

/-! Lemmas about the `Avg` aggregate. -/

theorem avg_foldl (vs : List Int) (s : Int) (c : Nat) :
    vs.foldl (fun acc v => (acc.1 + v, acc.2 + 1)) (s, c) = (s + vs.sum, c + vs.length) := by
  induction vs generalizing s c with
  | nil => simp
  | cons v vs ih =>
    rw [List.foldl_cons, ih]
    refine Prod.ext ?_ ?_
    · simp [List.sum_cons]; ring
    · simp [List.length_cons]; omega

theorem sqlAvg_eq (vs : List Int) :
    sqlAvg vs = if vs.length = 0 then none
                else some ((vs.sum : ℚ) / (vs.length : ℚ)) := by
  simp only [sqlAvg, avg_foldl, Int.zero_add, Nat.zero_add]

/-! The claims. -/

/-- C1: in `RatingViewSet.get_permissions`, a `create` request gets the
owner-only permission list, not `[IsAuthenticated]`: the create assignment
is unconditionally overwritten by the following `list`/`else` statement, so
the authenticated-may-create rule is dead code — no action ever yields it. -/
theorem rating_create_permission_overwritten :
    RatingViewSet.get_permissions ViewAction.create = [Permission.IsOwner] ∧
    RatingViewSet.get_permissions ViewAction.create ≠ [Permission.IsAuthenticated] ∧
    ∀ a, RatingViewSet.get_permissions a ≠ [Permission.IsAuthenticated] := by
  refine ⟨rfl, by decide, ?_⟩
  intro a
  cases a <;> decide

/-- C2 (counterexample): the Booking integrity body is not the claimed
string — the source concatenates
`'You have already booked this pool.' + 'Request an update if required'`
with no space between the two literals, so the claimed body with a space
after the period is not what the handler returns. -/
theorem booking_integrity_body_not_as_claimed :
    BookingViewSet.handle_exception
        (Exc.IntegrityError "UNIQUE constraint failed: restful_booking.slug") ≠
      ⟨400, Body.kv "Integrity error"
        "You have already booked this pool. Request an update if required"⟩ := by
  decide

/-- C2 (amended): every Booking `IntegrityError` is rewritten to status 400
with body exactly `{"Integrity error": "You have already booked this
pool.Request an update if required"}` (no space after the period) — a fixed
constant, never a 500 and never the raw storage-layer exception text. -/
theorem booking_integrity_translated (m : String) :
    BookingViewSet.handle_exception (Exc.IntegrityError m) =
      ⟨400, Body.kv "Integrity error"
        "You have already booked this pool.Request an update if required"⟩ := rfl

/-- C3: for Rating creation (`serializer.save(user=self.request.user)`) and
Booking creation (spec-modelled, serializer not under src/), the stored
row's `user` is the caller's id, whatever `user` the payload carried. -/
theorem creation_forces_caller_identity (caller : Identity) (rp : RatingPayload)
    (bp : BookingPayload) (slug1 slug2 : String) (now1 now2 : Nat) :
    (RatingViewSet.perform_create caller rp slug1 now1).user = caller.id ∧
    (bookingCreate caller bp slug2 now2).user = caller.id :=
  ⟨rfl, rfl⟩

/-- C4 (counterexample): `user_ratings` with a requested page does not
return the paginated envelope: at this concrete input the response is the
bare serialized page (`Response(serializer.data)`), refuting the claim that
both owner-scoped listings return `{count, next, previous, results}` when a
page is requested. -/
theorem user_ratings_page_without_envelope :
    RatingViewSet.user_ratings (ReqUser.authenticated ⟨1, "alice", false⟩)
        [⟨"alice-p1", 1, "p1", 5, 10⟩] (some 1) 10 =
      ⟨200, Body.ratingList [⟨"alice-p1", 1, "p1", 5, 10⟩]⟩ ∧
    (RatingViewSet.user_ratings (ReqUser.authenticated ⟨1, "alice", false⟩)
        [⟨"alice-p1", 1, "p1", 5, 10⟩] (some 1) 10).body.isEnvelope = false := by
  constructor
  · decide
  · decide

/-- C4 (amended): with a page requested, `recent_bookings` returns the
paginated envelope over the caller's filtered, ordered bookings, while
`user_ratings` returns the bare page slice without the envelope; with no
page requested, both return the full filtered, ordered sequence. -/
theorem owner_scoped_listing_pagination (u : Identity) (bdb : List Booking)
    (rdb : List Rating) (n pageSize : Nat) :
    BookingViewSet.recent_bookings (ReqUser.authenticated u) bdb (some n) pageSize =
      ⟨200, Body.bookingEnvelope (BookingViewSet.recentQueryset u bdb).length
        (envelopeNext n pageSize (BookingViewSet.recentQueryset u bdb).length)
        (envelopePrevious n)
        (((BookingViewSet.recentQueryset u bdb).drop ((n - 1) * pageSize)).take pageSize)⟩ ∧
    BookingViewSet.recent_bookings (ReqUser.authenticated u) bdb none pageSize =
      ⟨200, Body.bookingList (BookingViewSet.recentQueryset u bdb)⟩ ∧
    RatingViewSet.user_ratings (ReqUser.authenticated u) rdb (some n) pageSize =
      ⟨200, Body.ratingList
        (((RatingViewSet.userQueryset u rdb).drop ((n - 1) * pageSize)).take pageSize)⟩ ∧
    (RatingViewSet.user_ratings (ReqUser.authenticated u) rdb (some n) pageSize).body.isEnvelope
      = false ∧
    RatingViewSet.user_ratings (ReqUser.authenticated u) rdb none pageSize =
      ⟨200, Body.ratingList (RatingViewSet.userQueryset u rdb)⟩ :=
  ⟨rfl, rfl, rfl, rfl, rfl⟩

/-- C5: the Booking permission policy grants `list` exactly to admin
identities, `create` exactly to authenticated identities, and `retrieve`,
`update`, `destroy` exactly to the owner of the target booking. -/
theorem booking_access_policy (caller : ReqUser) (owner : Identity) :
    (allowed (BookingViewSet.get_permissions ViewAction.list) ViewAction.list caller owner = true
       ↔ ∃ u, caller = ReqUser.authenticated u ∧ u.isAdmin = true) ∧
    (allowed (BookingViewSet.get_permissions ViewAction.create) ViewAction.create caller owner = true
       ↔ ∃ u, caller = ReqUser.authenticated u) ∧
    (allowed (BookingViewSet.get_permissions ViewAction.retrieve) ViewAction.retrieve caller owner = true
       ↔ caller = ReqUser.authenticated owner) ∧
    (allowed (BookingViewSet.get_permissions ViewAction.update) ViewAction.update caller owner = true
       ↔ caller = ReqUser.authenticated owner) ∧
    (allowed (BookingViewSet.get_permissions ViewAction.destroy) ViewAction.destroy caller owner = true
       ↔ caller = ReqUser.authenticated owner) := by
  cases caller with
  | anonymous =>
    simp [allowed, BookingViewSet.get_permissions, Permission.has_permission,
      Permission.has_object_permission, ViewAction.isDetail]
  | authenticated u =>
    simp [allowed, BookingViewSet.get_permissions, Permission.has_permission,
      Permission.has_object_permission, ViewAction.isDetail]

/-- C6: `recent_bookings` answers 401 for an anonymous caller; for an
authenticated caller (no page requested) the body is exactly the list of
bookings whose `user` is the caller — membership in the returned queryset
is equivalent to being the caller's booking — ordered newest-first. -/
theorem recent_bookings_owner_scoped (db : List Booking) (page : Option Nat)
    (pageSize : Nat) (u : Identity) (b : Booking) :
    (BookingViewSet.recent_bookings ReqUser.anonymous db page pageSize).status = 401 ∧
    BookingViewSet.recent_bookings (ReqUser.authenticated u) db none pageSize =
      ⟨200, Body.bookingList (BookingViewSet.recentQueryset u db)⟩ ∧
    (b ∈ BookingViewSet.recentQueryset u db ↔ b ∈ db ∧ b.user = u.id) ∧
    (BookingViewSet.recentQueryset u db).Sorted (fun x y => y.created_at ≤ x.created_at) := by
  refine ⟨rfl, rfl, ?_, ?_⟩
  · rw [BookingViewSet.recentQueryset, mem_order_by_desc]
    simp [List.mem_filter]
  · exact sorted_order_by_desc _ _

/-- C7: every Rating `IntegrityError` is rewritten to status 400 with body
exactly `{"Integrity Error": "Already rated! request update to make
changes"}`, whose key casing differs from the Booking conflict body; every
non-integrity exception is passed unchanged to the framework's generic
handler. -/
theorem rating_integrity_translated (m : String) (e : Exc)
    (h : ∀ s, e ≠ Exc.IntegrityError s) :
    RatingViewSet.handle_exception (Exc.IntegrityError m) =
      ⟨400, Body.kv "Integrity Error" "Already rated! request update to make changes"⟩ ∧
    (RatingViewSet.handle_exception (Exc.IntegrityError m)).body ≠
      (BookingViewSet.handle_exception (Exc.IntegrityError m)).body ∧
    RatingViewSet.handle_exception e = default_handle_exception e := by
  refine ⟨rfl, ?_, ?_⟩
  · show Body.kv "Integrity Error" "Already rated! request update to make changes" ≠
        Body.kv "Integrity error"
          ("You have already booked this pool." ++ "Request an update if required")
    decide
  · cases e with
    | IntegrityError s => exact absurd rfl (h s)
    | NotFound => rfl
    | ValidationError _ => rfl
    | Other _ => rfl

/-- C7 (witness): the Rating integrity translation and the pass-through of
a non-integrity exception (`NotFound`) at concrete inputs. -/
theorem rating_integrity_translated_witness :
    RatingViewSet.handle_exception (Exc.IntegrityError "UNIQUE constraint failed") =
      ⟨400, Body.kv "Integrity Error" "Already rated! request update to make changes"⟩ ∧
    (RatingViewSet.handle_exception (Exc.IntegrityError "UNIQUE constraint failed")).body ≠
      (BookingViewSet.handle_exception (Exc.IntegrityError "UNIQUE constraint failed")).body ∧
    RatingViewSet.handle_exception Exc.NotFound = default_handle_exception Exc.NotFound :=
  rating_integrity_translated "UNIQUE constraint failed" Exc.NotFound
    (fun _ h => Exc.noConfusion h)

/-- C8: in `PoolViewSet.get_queryset`, the value annotated onto each pool
is the `Avg` aggregate of the values of the ratings whose `pool` is that
pool's slug: `none` when the pool has no rating, and the arithmetic mean
(sum divided by count, as a rational) when it has at least one. -/
theorem pool_average_rating (pools : List Pool) (ratings : List Rating)
    (p : Pool) (avg : Option ℚ)
    (h : (p, avg) ∈ PoolViewSet.get_queryset pools ratings) :
    avg = sqlAvg ((ratings.filter (fun r => r.pool == p.slug)).map Rating.value) ∧
    (ratings.filter (fun r => r.pool == p.slug) = [] → avg = none) ∧
    (0 < (ratings.filter (fun r => r.pool == p.slug)).length →
      avg = some ((((ratings.filter (fun r => r.pool == p.slug)).map Rating.value).sum : ℚ) /
        ((ratings.filter (fun r => r.pool == p.slug)).length : ℚ))) := by
  rw [PoolViewSet.get_queryset, mem_order_by_desc] at h
  rcases List.mem_map.mp h with ⟨q, hqmem, hq⟩
  have hqp : q = p := congrArg Prod.fst hq
  have havg : avg = sqlAvg ((ratings.filter (fun r => r.pool == p.slug)).map Rating.value) := by
    rw [← hqp]
    exact (congrArg Prod.snd hq).symm
  refine ⟨havg, ?_, ?_⟩
  · intro hnil
    rw [havg, sqlAvg_eq]
    simp [hnil]
  · intro hpos
    rw [havg, sqlAvg_eq, List.length_map]
    have hne : (ratings.filter (fun r => r.pool == p.slug)).length ≠ 0 :=
      Nat.pos_iff_ne_zero.mp hpos
    simp [hne]

/-- C8 (witness): the average annotation for a concrete pool with two
ratings of values 4 and 2 is 3. -/
theorem pool_average_rating_witness :
    some (3 : ℚ) = sqlAvg ((([(⟨"u1-p1", 1, "p1", 4, 1⟩ : Rating),
        ⟨"u2-p1", 2, "p1", 2, 2⟩]).filter
      (fun r => r.pool == (⟨"p1", "Main", 5⟩ : Pool).slug)).map Rating.value) :=
  (pool_average_rating [⟨"p1", "Main", 5⟩]
    [⟨"u1-p1", 1, "p1", 4, 1⟩, ⟨"u2-p1", 2, "p1", 2, 2⟩]
    ⟨"p1", "Main", 5⟩ (some 3) (by
      simp only [PoolViewSet.get_queryset, List.map_cons, List.map_nil]
      rw [mem_order_by_desc]
      simp [sqlAvg]
      norm_num)).1

/-- C9: every collection listing is sorted newest-first: the Pool, Booking
and Rating querysets by `created_at` descending, the FileUpload queryset by
`uploaded_at` descending, for every repository state. -/
theorem listings_newest_first (pools : List Pool) (ratings : List Rating)
    (bookings : List Booking) (files : List FileUpload) :
    (PoolViewSet.get_queryset pools ratings).Sorted
      (fun x y => y.1.created_at ≤ x.1.created_at) ∧
    (BookingViewSet.queryset bookings).Sorted (fun x y => y.created_at ≤ x.created_at) ∧
    (RatingViewSet.queryset ratings).Sorted (fun x y => y.created_at ≤ x.created_at) ∧
    (FileUploadView.queryset files).Sorted (fun x y => y.uploaded_at ≤ x.uploaded_at) :=
  ⟨sorted_order_by_desc _ _, sorted_order_by_desc _ _, sorted_order_by_desc _ _,
   sorted_order_by_desc _ _⟩

/-- C10: the register endpoint configures no authentication classes and the
allow-any permission, so its outcome is a function of the request body and
the stored users alone — two register requests with the same body get the
same response whatever credentials accompany each, and `request.user` is
always anonymous there. -/
theorem register_ignores_credentials (c1 c2 : Credentials) (body : RegisterBody)
    (db : List UserRow) :
    RegisterAPIView.handle c1 body db = RegisterAPIView.handle c2 body db ∧
    authenticate RegisterAPIView.authentication_classes c1 = ReqUser.anonymous :=
  ⟨rfl, rfl⟩

end Swimmy
